import Mathlib

/-!
Verification of the eth/63 sub-protocol send path of `ETHProtocol`
(`src/myEVM/trinity/protocol/eth/proto.py`), shallowly embedded in Lean 4.

The embedding follows the source file directly.  Collaborators that live
outside the provided sources (the command classes' id resolution, the
request descriptors, the codec's `encode` and the transport's `send`) are
modelled from the specification: the codec and transport are kept abstract
(arbitrary fallible functions), and a structural instantiation records the
resolved command id and the payload shape of each emitted frame.
-/

namespace EthProto

/-- A byte string (32-byte hash, opaque trie node, ...), modelled as a list
of byte values.  The core never inspects the bytes. -/
abbrev Bytes := List Nat

/-- A value as it appears in a payload mapping: a non-negative integer, a
boolean, or a byte string.  `Union[BlockNumber, Hash32]` fields hold either
a `nat` or a `bytes` value. -/
inductive Value where
  | nat : Nat → Value
  | bool : Bool → Value
  | bytes : Bytes → Value
deriving DecidableEq, Repr

/-- Opaque stand-in for `eth.rlp.headers.BlockHeader`; the core passes
headers through without inspecting them. -/
structure BlockHeader where
  data : Nat
deriving DecidableEq, Repr

/-- Opaque stand-in for `trinity.rlp.block_body.BlockBody`. -/
structure BlockBody where
  data : Nat
deriving DecidableEq, Repr

/-- Opaque stand-in for `eth.rlp.receipts.Receipt`. -/
structure Receipt where
  data : Nat
deriving DecidableEq, Repr

/-- Opaque stand-in for `eth.rlp.transactions.BaseTransactionFields`. -/
structure TransactionFields where
  data : Nat
deriving DecidableEq, Repr

/-- The payload handed to a command's encoder: either a string-keyed
mapping (Python dict literal, in source order) or one of the sequence
shapes the senders pass through. -/
inductive Payload where
  | dict : List (String × Value) → Payload
  | byteSeq : List Bytes → Payload
  | headerSeq : List BlockHeader → Payload
  | bodySeq : List BlockBody → Payload
  | receiptSeq : List (List Receipt) → Payload
  | txSeq : List TransactionFields → Payload
deriving DecidableEq, Repr

/-- The twelve command kinds imported from `.commands`. -/
inductive Command where
  | Status
  | NewBlockHashes
  | Transactions
  | GetBlockHeaders
  | BlockHeaders
  | GetBlockBodies
  | BlockBodies
  | NewBlock
  | GetNodeData
  | NodeData
  | GetReceipts
  | Receipts
deriving DecidableEq, Repr

end EthProto

namespace EthProto.ETHProtocol

/-- `ETHProtocol.name` (proto.py line 52). -/
def name : String := "eth"

/-- `ETHProtocol.version` (proto.py line 53). -/
def version : Nat := 63

/-- `ETHProtocol._commands` (proto.py lines 54-57): the ordered command
table of the eth sub-protocol. -/
def _commands : List EthProto.Command :=
  [.Status, .NewBlockHashes, .Transactions, .GetBlockHeaders, .BlockHeaders,
   .GetBlockBodies, .BlockBodies, .NewBlock, .GetNodeData, .NodeData,
   .GetReceipts, .Receipts]

/-- `ETHProtocol.cmd_length` (proto.py line 58). -/
def cmd_length : Nat := 17

end EthProto.ETHProtocol

namespace EthProto

/-- Modelled from the spec: each command is "bound to a relative command
index" and the table is an "ordered sequence of CommandDefinition, indexed
0..N-1" (spec sections 2 and 3); the defining module `.commands` and the
base class `p2p.protocol.Command` are not among the provided sources, so
the relative index is taken to be the command's position in the table. -/
def relIdx : Command → Nat
  | .Status => 0
  | .NewBlockHashes => 1
  | .Transactions => 2
  | .GetBlockHeaders => 3
  | .BlockHeaders => 4
  | .GetBlockBodies => 5
  | .BlockBodies => 6
  | .NewBlock => 7
  | .GetNodeData => 8
  | .NodeData => 9
  | .GetReceipts => 10
  | .Receipts => 11

/-- A wire frame at the structural level: the resolved global command
identifier carried by the header, and the encoded body.  The byte-level
layout is out of scope (spec section 6), so the body is kept as the
payload shape the codec was handed. -/
structure Frame where
  cmdId : Nat
  body : Payload
deriving DecidableEq, Repr

/-- Modelled from the spec: the ProtocolInstance "holds the peer's
chain-identity context and the local command-ID offset" (spec section 3);
`self.peer.network_id` and `self.cmd_id_offset` are the two pieces the
source reads from it.  `p2p.protocol.Protocol` is not among the provided
sources. -/
structure ProtocolInstance where
  network_id : Nat
  cmd_id_offset : Nat
deriving DecidableEq, Repr

/-- Modelled from the spec: ChainInfo carries "total cumulative difficulty,
current best block hash, genesis block hash" (spec section 3); the field
names are the ones `send_handshake` reads (proto.py lines 65-67). -/
structure ChainInfo where
  total_difficulty : Nat
  block_hash : Bytes
  genesis_hash : Bytes
deriving DecidableEq, Repr

/-- Modelled from the spec: HeaderRequest descriptor (spec section 3); the
field names are the ones `send_get_block_headers` forwards (proto.py lines
100-103).  `block_number_or_hash` holds either a block number or a hash. -/
structure HeaderRequest where
  block_number_or_hash : Value
  max_headers : Nat
  skip : Nat
  reverse : Bool
deriving DecidableEq, Repr

/-- Modelled from the spec: NodeDataRequest wraps an ordered sequence of
hashes (spec section 3); field name from proto.py line 77. -/
structure NodeDataRequest where
  node_hashes : List Bytes
deriving DecidableEq, Repr

/-- Modelled from the spec: BlockBodiesRequest wraps an ordered sequence
of hashes (spec section 3); field name from proto.py line 130. -/
structure BlockBodiesRequest where
  block_hashes : List Bytes
deriving DecidableEq, Repr

/-- Modelled from the spec: ReceiptsRequest wraps an ordered sequence of
hashes (spec section 3); field name from proto.py line 146. -/
structure ReceiptsRequest where
  block_hashes : List Bytes
deriving DecidableEq, Repr

/-- One sub-protocol session: the (read-only) ProtocolInstance plus the
trace of frames successfully handed to the transport. -/
structure SessionState where
  inst : ProtocolInstance
  sent : List Frame
deriving DecidableEq, Repr

/-- Modelled from the spec: the two external collaborators (spec section
6) — the codec's per-command `encode(payload) -> (header, body)` and the
transport's `send(header, body)` — as arbitrary fallible operations.
`encode` receives the resolved command and the session's command-id
offset, matching `cmd = C(self.cmd_id_offset); cmd.encode(payload)`. -/
structure Collab (ε : Type) where
  encode : Command → Nat → Payload → Except ε Frame
  send : Frame → Except ε Unit

/-- The resolve-encode-send step every sender of proto.py performs:
`cmd = C(self.cmd_id_offset)`, `header, body = cmd.encode(payload)`,
`self.send(header, body)`.  A codec or transport error is returned
unchanged and the state is left untouched; on success the frame is
appended to the sent trace. -/
def emit {ε : Type} (co : Collab ε) (st : SessionState) (c : Command)
    (pl : Payload) : Except ε Unit × SessionState :=
  match co.encode c st.inst.cmd_id_offset pl with
  | .error e => (.error e, st)
  | .ok f =>
    match co.send f with
    | .error e => (.error e, st)
    | .ok _ => (.ok (), ⟨st.inst, st.sent ++ [f]⟩)

/-- The structural codec: the frame records the resolved global command id
(offset + relative index) and the payload handed in; it never fails.  The
structural transport accepts every frame. -/
def structCollab : Collab Unit :=
  ⟨fun c off pl => .ok ⟨off + relIdx c, pl⟩, fun _ => .ok ()⟩

end EthProto

namespace EthProto.ETHProtocol

/-- `ETHProtocol.send_handshake` (proto.py lines 61-71): builds the status
mapping, resolves the Status command, encodes and sends it. -/
def send_handshake {ε : Type} (co : Collab ε) (st : SessionState)
    (head_info : ChainInfo) : Except ε Unit × SessionState :=
  emit co st .Status (.dict
    [("protocol_version", .nat version),
     ("network_id", .nat st.inst.network_id),
     ("td", .nat head_info.total_difficulty),
     ("best_hash", .bytes head_info.block_hash),
     ("genesis_hash", .bytes head_info.genesis_hash)])

/-- `ETHProtocol._send_get_node_data` (proto.py lines 79-82). -/
def _send_get_node_data {ε : Type} (co : Collab ε) (st : SessionState)
    (node_hashes : List Bytes) : Except ε Unit × SessionState :=
  emit co st .GetNodeData (.byteSeq node_hashes)

/-- `ETHProtocol.send_get_node_data` (proto.py lines 76-77). -/
def send_get_node_data {ε : Type} (co : Collab ε) (st : SessionState)
    (request : NodeDataRequest) : Except ε Unit × SessionState :=
  _send_get_node_data co st request.node_hashes

/-- `ETHProtocol.send_node_data` (proto.py lines 84-87). -/
def send_node_data {ε : Type} (co : Collab ε) (st : SessionState)
    (nodes : List Bytes) : Except ε Unit × SessionState :=
  emit co st .NodeData (.byteSeq nodes)

/-- `ETHProtocol._send_get_block_headers` (proto.py lines 106-119). -/
def _send_get_block_headers {ε : Type} (co : Collab ε) (st : SessionState)
    (block_number_or_hash : Value) (max_headers : Nat) (skip : Nat)
    (reverse : Bool) : Except ε Unit × SessionState :=
  emit co st .GetBlockHeaders (.dict
    [("block_number_or_hash", block_number_or_hash),
     ("max_headers", .nat max_headers),
     ("skip", .nat skip),
     ("reverse", .bool reverse)])

/-- `ETHProtocol.send_get_block_headers` (proto.py lines 92-104). -/
def send_get_block_headers {ε : Type} (co : Collab ε) (st : SessionState)
    (request : HeaderRequest) : Except ε Unit × SessionState :=
  _send_get_block_headers co st request.block_number_or_hash
    request.max_headers request.skip request.reverse

/-- `ETHProtocol.send_block_headers` (proto.py lines 121-124). -/
def send_block_headers {ε : Type} (co : Collab ε) (st : SessionState)
    (headerSeq : List BlockHeader) : Except ε Unit × SessionState :=
  emit co st .BlockHeaders (.headerSeq headerSeq)

/-- `ETHProtocol._send_get_block_bodies` (proto.py lines 132-135). -/
def _send_get_block_bodies {ε : Type} (co : Collab ε) (st : SessionState)
    (block_hashes : List Bytes) : Except ε Unit × SessionState :=
  emit co st .GetBlockBodies (.byteSeq block_hashes)

/-- `ETHProtocol.send_get_block_bodies` (proto.py lines 129-130). -/
def send_get_block_bodies {ε : Type} (co : Collab ε) (st : SessionState)
    (request : BlockBodiesRequest) : Except ε Unit × SessionState :=
  _send_get_block_bodies co st request.block_hashes

/-- `ETHProtocol.send_block_bodies` (proto.py lines 137-140). -/
def send_block_bodies {ε : Type} (co : Collab ε) (st : SessionState)
    (blocks : List BlockBody) : Except ε Unit × SessionState :=
  emit co st .BlockBodies (.bodySeq blocks)

/-- `ETHProtocol._send_get_receipts` (proto.py lines 148-151). -/
def _send_get_receipts {ε : Type} (co : Collab ε) (st : SessionState)
    (block_hashes : List Bytes) : Except ε Unit × SessionState :=
  emit co st .GetReceipts (.byteSeq block_hashes)

/-- `ETHProtocol.send_get_receipts` (proto.py lines 145-146). -/
def send_get_receipts {ε : Type} (co : Collab ε) (st : SessionState)
    (request : ReceiptsRequest) : Except ε Unit × SessionState :=
  _send_get_receipts co st request.block_hashes

/-- `ETHProtocol.send_receipts` (proto.py lines 153-156). -/
def send_receipts {ε : Type} (co : Collab ε) (st : SessionState)
    (receipts : List (List Receipt)) : Except ε Unit × SessionState :=
  emit co st .Receipts (.receiptSeq receipts)

/-- `ETHProtocol.send_transactions` (proto.py lines 161-164). -/
def send_transactions {ε : Type} (co : Collab ε) (st : SessionState)
    (transactions : List TransactionFields) : Except ε Unit × SessionState :=
  emit co st .Transactions (.txSeq transactions)

end EthProto.ETHProtocol

namespace EthProto

/-- The keys of a mapping payload, in source order. -/
def dictKeys : Payload → List String
  | .dict kvs => kvs.map Prod.fst
  | _ => []

/-- Look up a key in a mapping payload. -/
def dictLookup (pl : Payload) (k : String) : Option Value :=
  match pl with
  | .dict kvs => kvs.lookup k
  | _ => none

/-- The resolve-encode-send step never changes the ProtocolInstance,
whether the codec or the transport succeeds or fails. -/
theorem emit_inst_eq {ε : Type} (co : Collab ε) (st : SessionState)
    (c : Command) (pl : Payload) : (emit co st c pl).2.inst = st.inst := by
  unfold emit
  split
  · rfl
  · split
    · rfl
    · rfl

/-- The outcome of the resolve-encode-send step is exactly the codec's
error when encoding fails, and otherwise exactly the transport's result:
no catching, wrapping or substitution happens in between. -/
theorem emit_fst_eq {ε : Type} (co : Collab ε) (st : SessionState)
    (c : Command) (pl : Payload) :
    (emit co st c pl).1 =
      match co.encode c st.inst.cmd_id_offset pl with
      | .error e => .error e
      | .ok f => co.send f := by
  unfold emit
  cases h : co.encode c st.inst.cmd_id_offset pl with
  | error e => rfl
  | ok f =>
    simp only
    cases hs : co.send f with
    | error e => simp [hs]
    | ok u => simp [hs]

/-- C1: the command table of the eth sub-protocol (version 63) contains
exactly twelve commands, in this fixed order: Status, NewBlockHashes,
Transactions, GetBlockHeaders, BlockHeaders, GetBlockBodies, BlockBodies,
NewBlock, GetNodeData, NodeData, GetReceipts, Receipts. -/
theorem eth_command_table_fixed :
    ETHProtocol._commands =
      [Command.Status, Command.NewBlockHashes, Command.Transactions,
       Command.GetBlockHeaders, Command.BlockHeaders, Command.GetBlockBodies,
       Command.BlockBodies, Command.NewBlock, Command.GetNodeData,
       Command.NodeData, Command.GetReceipts, Command.Receipts] ∧
    ETHProtocol._commands.length = 12 ∧ ETHProtocol.version = 63 := by
  decide

/-- C2 counterexample: the declared command length of the eth sub-protocol
is 17 while its command table has 12 entries, so the declared command
length does not equal the count of entries in the table. -/
theorem cmd_length_ne_table_count :
    ETHProtocol.cmd_length = 17 ∧ ETHProtocol._commands.length = 12 ∧
    ETHProtocol.cmd_length ≠ ETHProtocol._commands.length := by
  decide

/-- C2 amended: the declared width of the command-ID space the eth
sub-protocol consumes is 17, which strictly exceeds the 12 entries of its
command table (the reserved ID space is wider than the table). -/
theorem cmd_length_exceeds_table_count :
    ETHProtocol.cmd_length = 17 ∧ ETHProtocol._commands.length = 12 ∧
    ETHProtocol._commands.length < ETHProtocol.cmd_length := by
  decide

/-- C3: for every ChainInfo, `send_handshake` emits one Status frame whose
payload is a mapping with exactly the keys protocol_version, network_id,
td, best_hash and genesis_hash, bound to the protocol version constant
(63), the session peer's network id, and the ChainInfo's total difficulty,
best-block hash and genesis hash respectively. -/
theorem send_handshake_status_payload (st : SessionState) (hi : ChainInfo) :
    ∃ f : Frame,
      (ETHProtocol.send_handshake structCollab st hi).2.sent = st.sent ++ [f] ∧
      f.cmdId = st.inst.cmd_id_offset + relIdx Command.Status ∧
      dictKeys f.body =
        ["protocol_version", "network_id", "td", "best_hash", "genesis_hash"] ∧
      dictLookup f.body ("protocol_version") = some (.nat ETHProtocol.version) ∧
      ETHProtocol.version = 63 ∧
      dictLookup f.body ("network_id") = some (.nat st.inst.network_id) ∧
      dictLookup f.body ("td") = some (.nat hi.total_difficulty) ∧
      dictLookup f.body ("best_hash") = some (.bytes hi.block_hash) ∧
      dictLookup f.body ("genesis_hash") = some (.bytes hi.genesis_hash) := by
  exact ⟨_, rfl, rfl, rfl, rfl, rfl, rfl, rfl, rfl, rfl⟩

/-- C4: for every HeaderRequest, `send_get_block_headers` emits one
GetBlockHeaders frame whose payload is a mapping with exactly the keys
block_number_or_hash, max_headers, skip and reverse, each bound to the
descriptor's corresponding field unchanged; in particular a request for
block number 42 with max_headers 5, skip 0 and reverse false yields the
payload mapping (block_number_or_hash 42, max_headers 5, skip 0,
reverse false). -/
theorem send_get_block_headers_payload (st : SessionState)
    (req : HeaderRequest) :
    (∃ f : Frame,
      (ETHProtocol.send_get_block_headers structCollab st req).2.sent =
        st.sent ++ [f] ∧
      f.cmdId = st.inst.cmd_id_offset + relIdx Command.GetBlockHeaders ∧
      dictKeys f.body =
        ["block_number_or_hash", "max_headers", "skip", "reverse"] ∧
      dictLookup f.body ("block_number_or_hash") =
        some req.block_number_or_hash ∧
      dictLookup f.body ("max_headers") = some (.nat req.max_headers) ∧
      dictLookup f.body ("skip") = some (.nat req.skip) ∧
      dictLookup f.body ("reverse") = some (.bool req.reverse)) ∧
    (ETHProtocol.send_get_block_headers structCollab st
        ⟨Value.nat 42, 5, 0, false⟩).2.sent =
      st.sent ++ [⟨st.inst.cmd_id_offset + relIdx Command.GetBlockHeaders,
        .dict [("block_number_or_hash", .nat 42), ("max_headers", .nat 5),
               ("skip", .nat 0), ("reverse", .bool false)]⟩] := by
  exact ⟨⟨_, rfl, rfl, rfl, rfl, rfl, rfl, rfl⟩, rfl⟩

/-- C5: for every hash sequence carried by a BlockBodiesRequest,
ReceiptsRequest or NodeDataRequest, the payload of the emitted Get* frame
is exactly that sequence of hashes, with input order preserved and no
element added, dropped or reordered. -/
theorem get_request_payload_is_hash_sequence (st : SessionState)
    (bb : BlockBodiesRequest) (rc : ReceiptsRequest) (nd : NodeDataRequest) :
    (ETHProtocol.send_get_block_bodies structCollab st bb).2.sent =
      st.sent ++ [⟨st.inst.cmd_id_offset + relIdx Command.GetBlockBodies,
        .byteSeq bb.block_hashes⟩] ∧
    (ETHProtocol.send_get_receipts structCollab st rc).2.sent =
      st.sent ++ [⟨st.inst.cmd_id_offset + relIdx Command.GetReceipts,
        .byteSeq rc.block_hashes⟩] ∧
    (ETHProtocol.send_get_node_data structCollab st nd).2.sent =
      st.sent ++ [⟨st.inst.cmd_id_offset + relIdx Command.GetNodeData,
        .byteSeq nd.node_hashes⟩] :=
  ⟨rfl, rfl, rfl⟩

/-- C6: each response/announcement sender (send_block_headers,
send_block_bodies, send_receipts, send_node_data, send_transactions)
passes its input sequence to the resolved command's encoder exactly as
given — no field extraction, no reshaping, no reordering — and the emitted
frame carries that sequence as its body. -/
theorem response_senders_pass_sequence_unchanged (st : SessionState)
    (hs : List BlockHeader) (bs : List BlockBody)
    (rls : List (List Receipt)) (ns : List Bytes)
    (ts : List TransactionFields) :
    (ETHProtocol.send_block_headers structCollab st hs).2.sent =
      st.sent ++ [⟨st.inst.cmd_id_offset + relIdx Command.BlockHeaders,
        .headerSeq hs⟩] ∧
    (ETHProtocol.send_block_bodies structCollab st bs).2.sent =
      st.sent ++ [⟨st.inst.cmd_id_offset + relIdx Command.BlockBodies,
        .bodySeq bs⟩] ∧
    (ETHProtocol.send_receipts structCollab st rls).2.sent =
      st.sent ++ [⟨st.inst.cmd_id_offset + relIdx Command.Receipts,
        .receiptSeq rls⟩] ∧
    (ETHProtocol.send_node_data structCollab st ns).2.sent =
      st.sent ++ [⟨st.inst.cmd_id_offset + relIdx Command.NodeData,
        .byteSeq ns⟩] ∧
    (ETHProtocol.send_transactions structCollab st ts).2.sent =
      st.sent ++ [⟨st.inst.cmd_id_offset + relIdx Command.Transactions,
        .txSeq ts⟩] :=
  ⟨rfl, rfl, rfl, rfl, rfl⟩

/-- Two successive resolve-encode-send steps with the same command and
payload on the same ProtocolInstance append two identical frames, whose
command identifier is the offset plus the command's relative index. -/
theorem emit_struct_twice (st : SessionState) (c : Command) (pl : Payload) :
    ∃ f : Frame,
      (emit structCollab st c pl).2.sent = st.sent ++ [f] ∧
      (emit structCollab (emit structCollab st c pl).2 c pl).2.sent =
        st.sent ++ [f, f] ∧
      f.cmdId = st.inst.cmd_id_offset + relIdx c := by
  refine ⟨_, rfl, ?_, rfl⟩
  simp [emit, structCollab]

/-- C7: every sender is deterministic in its input and the
ProtocolInstance: invoking each of the ten constructors twice with the
same argument on the same ProtocolInstance appends two structurally
identical frames — the same command identifier in the header (a pure
function of the command given the fixed command-id offset) and the same
encoded body. -/
theorem senders_deterministic_and_idempotent (st : SessionState)
    (hi : ChainInfo) (hr : HeaderRequest) (nd : NodeDataRequest)
    (bb : BlockBodiesRequest) (rc : ReceiptsRequest)
    (hs : List BlockHeader) (bs : List BlockBody) (rls : List (List Receipt))
    (ns : List Bytes) (ts : List TransactionFields) :
    (∃ f : Frame,
      (ETHProtocol.send_handshake structCollab st hi).2.sent =
        st.sent ++ [f] ∧
      (ETHProtocol.send_handshake structCollab
          (ETHProtocol.send_handshake structCollab st hi).2 hi).2.sent =
        st.sent ++ [f, f] ∧
      f.cmdId = st.inst.cmd_id_offset + relIdx Command.Status) ∧
    (∃ f : Frame,
      (ETHProtocol.send_get_node_data structCollab st nd).2.sent =
        st.sent ++ [f] ∧
      (ETHProtocol.send_get_node_data structCollab
          (ETHProtocol.send_get_node_data structCollab st nd).2 nd).2.sent =
        st.sent ++ [f, f] ∧
      f.cmdId = st.inst.cmd_id_offset + relIdx Command.GetNodeData) ∧
    (∃ f : Frame,
      (ETHProtocol.send_node_data structCollab st ns).2.sent =
        st.sent ++ [f] ∧
      (ETHProtocol.send_node_data structCollab
          (ETHProtocol.send_node_data structCollab st ns).2 ns).2.sent =
        st.sent ++ [f, f] ∧
      f.cmdId = st.inst.cmd_id_offset + relIdx Command.NodeData) ∧
    (∃ f : Frame,
      (ETHProtocol.send_get_block_headers structCollab st hr).2.sent =
        st.sent ++ [f] ∧
      (ETHProtocol.send_get_block_headers structCollab
          (ETHProtocol.send_get_block_headers structCollab st hr).2
          hr).2.sent =
        st.sent ++ [f, f] ∧
      f.cmdId = st.inst.cmd_id_offset + relIdx Command.GetBlockHeaders) ∧
    (∃ f : Frame,
      (ETHProtocol.send_block_headers structCollab st hs).2.sent =
        st.sent ++ [f] ∧
      (ETHProtocol.send_block_headers structCollab
          (ETHProtocol.send_block_headers structCollab st hs).2 hs).2.sent =
        st.sent ++ [f, f] ∧
      f.cmdId = st.inst.cmd_id_offset + relIdx Command.BlockHeaders) ∧
    (∃ f : Frame,
      (ETHProtocol.send_get_block_bodies structCollab st bb).2.sent =
        st.sent ++ [f] ∧
      (ETHProtocol.send_get_block_bodies structCollab
          (ETHProtocol.send_get_block_bodies structCollab st bb).2
          bb).2.sent =
        st.sent ++ [f, f] ∧
      f.cmdId = st.inst.cmd_id_offset + relIdx Command.GetBlockBodies) ∧
    (∃ f : Frame,
      (ETHProtocol.send_block_bodies structCollab st bs).2.sent =
        st.sent ++ [f] ∧
      (ETHProtocol.send_block_bodies structCollab
          (ETHProtocol.send_block_bodies structCollab st bs).2 bs).2.sent =
        st.sent ++ [f, f] ∧
      f.cmdId = st.inst.cmd_id_offset + relIdx Command.BlockBodies) ∧
    (∃ f : Frame,
      (ETHProtocol.send_get_receipts structCollab st rc).2.sent =
        st.sent ++ [f] ∧
      (ETHProtocol.send_get_receipts structCollab
          (ETHProtocol.send_get_receipts structCollab st rc).2 rc).2.sent =
        st.sent ++ [f, f] ∧
      f.cmdId = st.inst.cmd_id_offset + relIdx Command.GetReceipts) ∧
    (∃ f : Frame,
      (ETHProtocol.send_receipts structCollab st rls).2.sent =
        st.sent ++ [f] ∧
      (ETHProtocol.send_receipts structCollab
          (ETHProtocol.send_receipts structCollab st rls).2 rls).2.sent =
        st.sent ++ [f, f] ∧
      f.cmdId = st.inst.cmd_id_offset + relIdx Command.Receipts) ∧
    (∃ f : Frame,
      (ETHProtocol.send_transactions structCollab st ts).2.sent =
        st.sent ++ [f] ∧
      (ETHProtocol.send_transactions structCollab
          (ETHProtocol.send_transactions structCollab st ts).2 ts).2.sent =
        st.sent ++ [f, f] ∧
      f.cmdId = st.inst.cmd_id_offset + relIdx Command.Transactions) :=
  ⟨emit_struct_twice st _ _, emit_struct_twice st _ _,
   emit_struct_twice st _ _, emit_struct_twice st _ _,
   emit_struct_twice st _ _, emit_struct_twice st _ _,
   emit_struct_twice st _ _, emit_struct_twice st _ _,
   emit_struct_twice st _ _, emit_struct_twice st _ _⟩

/-- C8: no sender mutates the ProtocolInstance: for arbitrary codec and
transport behaviour — success or failure of either — every entry point
leaves the ProtocolInstance of the session exactly as it found it. -/
theorem senders_never_mutate_instance {ε : Type} (co : Collab ε)
    (st : SessionState) (hi : ChainInfo) (hr : HeaderRequest)
    (nd : NodeDataRequest) (bb : BlockBodiesRequest) (rc : ReceiptsRequest)
    (hs : List BlockHeader) (bs : List BlockBody) (rls : List (List Receipt))
    (ns : List Bytes) (ts : List TransactionFields) :
    (ETHProtocol.send_handshake co st hi).2.inst = st.inst ∧
    (ETHProtocol.send_get_node_data co st nd).2.inst = st.inst ∧
    (ETHProtocol.send_node_data co st ns).2.inst = st.inst ∧
    (ETHProtocol.send_get_block_headers co st hr).2.inst = st.inst ∧
    (ETHProtocol.send_block_headers co st hs).2.inst = st.inst ∧
    (ETHProtocol.send_get_block_bodies co st bb).2.inst = st.inst ∧
    (ETHProtocol.send_block_bodies co st bs).2.inst = st.inst ∧
    (ETHProtocol.send_get_receipts co st rc).2.inst = st.inst ∧
    (ETHProtocol.send_receipts co st rls).2.inst = st.inst ∧
    (ETHProtocol.send_transactions co st ts).2.inst = st.inst :=
  ⟨emit_inst_eq co st _ _, emit_inst_eq co st _ _, emit_inst_eq co st _ _,
   emit_inst_eq co st _ _, emit_inst_eq co st _ _, emit_inst_eq co st _ _,
   emit_inst_eq co st _ _, emit_inst_eq co st _ _, emit_inst_eq co st _ _,
   emit_inst_eq co st _ _⟩

/-- The outcome the spec's propagation policy demands of a sender: exactly
the codec's error when encoding fails, otherwise exactly the transport's
result — nothing caught, wrapped, suppressed or retried in between. -/
def passthroughOutcome {ε : Type} (co : Collab ε) (c : Command) (off : Nat)
    (pl : Payload) : Except ε Unit :=
  match co.encode c off pl with
  | .error e => .error e
  | .ok f => co.send f

/-- C9: for every input — no field of a descriptor or ChainInfo is
validated — each entry point's outcome is exactly the pass-through of the
codec's and transport's results: an error raised by encode or send
reaches the caller unchanged, and the call succeeds whenever both
collaborators do. -/
theorem senders_propagate_collaborator_errors {ε : Type} (co : Collab ε)
    (st : SessionState) (hi : ChainInfo) (hr : HeaderRequest)
    (nd : NodeDataRequest) (bb : BlockBodiesRequest) (rc : ReceiptsRequest)
    (hs : List BlockHeader) (bs : List BlockBody) (rls : List (List Receipt))
    (ns : List Bytes) (ts : List TransactionFields) :
    (ETHProtocol.send_handshake co st hi).1 =
      passthroughOutcome co Command.Status st.inst.cmd_id_offset
        (.dict [("protocol_version", .nat ETHProtocol.version),
                ("network_id", .nat st.inst.network_id),
                ("td", .nat hi.total_difficulty),
                ("best_hash", .bytes hi.block_hash),
                ("genesis_hash", .bytes hi.genesis_hash)]) ∧
    (ETHProtocol.send_get_node_data co st nd).1 =
      passthroughOutcome co Command.GetNodeData st.inst.cmd_id_offset
        (.byteSeq nd.node_hashes) ∧
    (ETHProtocol.send_node_data co st ns).1 =
      passthroughOutcome co Command.NodeData st.inst.cmd_id_offset
        (.byteSeq ns) ∧
    (ETHProtocol.send_get_block_headers co st hr).1 =
      passthroughOutcome co Command.GetBlockHeaders st.inst.cmd_id_offset
        (.dict [("block_number_or_hash", hr.block_number_or_hash),
                ("max_headers", .nat hr.max_headers),
                ("skip", .nat hr.skip),
                ("reverse", .bool hr.reverse)]) ∧
    (ETHProtocol.send_block_headers co st hs).1 =
      passthroughOutcome co Command.BlockHeaders st.inst.cmd_id_offset
        (.headerSeq hs) ∧
    (ETHProtocol.send_get_block_bodies co st bb).1 =
      passthroughOutcome co Command.GetBlockBodies st.inst.cmd_id_offset
        (.byteSeq bb.block_hashes) ∧
    (ETHProtocol.send_block_bodies co st bs).1 =
      passthroughOutcome co Command.BlockBodies st.inst.cmd_id_offset
        (.bodySeq bs) ∧
    (ETHProtocol.send_get_receipts co st rc).1 =
      passthroughOutcome co Command.GetReceipts st.inst.cmd_id_offset
        (.byteSeq rc.block_hashes) ∧
    (ETHProtocol.send_receipts co st rls).1 =
      passthroughOutcome co Command.Receipts st.inst.cmd_id_offset
        (.receiptSeq rls) ∧
    (ETHProtocol.send_transactions co st ts).1 =
      passthroughOutcome co Command.Transactions st.inst.cmd_id_offset
        (.txSeq ts) :=
  ⟨emit_fst_eq co st _ _, emit_fst_eq co st _ _, emit_fst_eq co st _ _,
   emit_fst_eq co st _ _, emit_fst_eq co st _ _, emit_fst_eq co st _ _,
   emit_fst_eq co st _ _, emit_fst_eq co st _ _, emit_fst_eq co st _ _,
   emit_fst_eq co st _ _⟩

/-- C10: each public request entry point produces exactly the same result
(outcome and frame) as the internal primitive-parameter constructor
applied to the descriptor's fields, for arbitrary codec and transport —
the public method does nothing but forward the descriptor's fields. -/
theorem public_request_senders_forward_descriptor_fields {ε : Type}
    (co : Collab ε) (st : SessionState) (nd : NodeDataRequest)
    (hr : HeaderRequest) (bb : BlockBodiesRequest) (rc : ReceiptsRequest) :
    ETHProtocol.send_get_node_data co st nd =
      ETHProtocol._send_get_node_data co st nd.node_hashes ∧
    ETHProtocol.send_get_block_headers co st hr =
      ETHProtocol._send_get_block_headers co st hr.block_number_or_hash
        hr.max_headers hr.skip hr.reverse ∧
    ETHProtocol.send_get_block_bodies co st bb =
      ETHProtocol._send_get_block_bodies co st bb.block_hashes ∧
    ETHProtocol.send_get_receipts co st rc =
      ETHProtocol._send_get_receipts co st rc.block_hashes :=
  ⟨rfl, rfl, rfl, rfl⟩

end EthProto
